import Mathlib

/-
Verification of the Windle handle-abstraction layer (src/lib.rs).

The crate declares `mod windows;` and re-exports `Win32WindowHandle`,
`WinRTWindowHandle` and `WindowsDisplayHandle` from it, but that module's
source is not part of the sources at hand; the payload structs are therefore
modelled from the specification (flat aggregates of numeric native
identifiers, pointers treated as opaque integers, zero as the sentinel
"absent" value).  Everything else — the two tagged unions, the two capability
traits, the blanket reference-forwarding impls and the `from_impl!`
conversions — is embedded directly from src/lib.rs.
-/

namespace Windle

/-- Modelled from the spec: the missing `windows` module's Win32 window
payload.  Per the spec ("a numeric window handle plus a numeric instance
handle for one platform"), a flat aggregate of two numeric native
identifiers with zero as the sentinel value. -/
structure Win32WindowHandle where
  hwnd : Nat
  hinstance : Nat
deriving DecidableEq, Repr

/-- Modelled from the spec: the missing `windows` module's WinRT window
payload, a single opaque pointer-like numeric identifier (the core window). -/
structure WinRTWindowHandle where
  core_window : Nat
deriving DecidableEq, Repr

/-- Modelled from the spec: the missing `windows` module's Windows display
payload.  The lib.rs documentation says windowing systems without a separate
display handle get empty payload structs, and Windows is such a system. -/
structure WindowsDisplayHandle where
deriving DecidableEq, Repr

/-- The `RawWindowHandle` tagged union of src/lib.rs (lines 49-62): one tag
per windowing system, each carrying its payload struct. -/
inductive RawWindowHandle where
  | Win32 (payload : Win32WindowHandle)
  | WinRT (payload : WinRTWindowHandle)
deriving DecidableEq, Repr

/-- The `RawDisplayHandle` tagged union of src/lib.rs (lines 110-118). -/
inductive RawDisplayHandle where
  | Windows (payload : WindowsDisplayHandle)
deriving DecidableEq, Repr

/-- The `From<Win32WindowHandle> for RawWindowHandle` impl generated by
`from_impl!` (src/lib.rs lines 120-133): wrap the payload under its tag. -/
def RawWindowHandle.fromWin32 (value : Win32WindowHandle) : RawWindowHandle :=
  RawWindowHandle.Win32 value

/-- The `From<WinRTWindowHandle> for RawWindowHandle` impl generated by
`from_impl!`. -/
def RawWindowHandle.fromWinRT (value : WinRTWindowHandle) : RawWindowHandle :=
  RawWindowHandle.WinRT value

/-- The `From<WindowsDisplayHandle> for RawDisplayHandle` impl generated by
`from_impl!`. -/
def RawDisplayHandle.fromWindows (value : WindowsDisplayHandle) : RawDisplayHandle :=
  RawDisplayHandle.Windows value

/-- Caller-side fallible pattern match extracting the Win32 payload: the
`if let RawWindowHandle::Win32(p) = v` a consumer writes. -/
def RawWindowHandle.matchWin32 : RawWindowHandle → Option Win32WindowHandle
  | RawWindowHandle.Win32 p => some p
  | _ => none

/-- Caller-side fallible pattern match extracting the WinRT payload. -/
def RawWindowHandle.matchWinRT : RawWindowHandle → Option WinRTWindowHandle
  | RawWindowHandle.WinRT p => some p
  | _ => none

/-- Caller-side fallible pattern match extracting the Windows display
payload. -/
def RawDisplayHandle.matchWindows : RawDisplayHandle → Option WindowsDisplayHandle
  | RawDisplayHandle.Windows p => some p

/-- Derived `PartialEq` on the Win32 payload: field-for-field comparison. -/
def Win32WindowHandle.beq (a b : Win32WindowHandle) : Bool :=
  a.hwnd == b.hwnd && a.hinstance == b.hinstance

/-- Derived `PartialEq` on the WinRT payload. -/
def WinRTWindowHandle.beq (a b : WinRTWindowHandle) : Bool :=
  a.core_window == b.core_window

/-- Derived `PartialEq` on the (empty) Windows display payload. -/
def WindowsDisplayHandle.beq (_ _ : WindowsDisplayHandle) : Bool :=
  true

/-- Derived `PartialEq` on `RawWindowHandle`: same tag and equal payloads,
different tags compare unequal. -/
def RawWindowHandle.beq : RawWindowHandle → RawWindowHandle → Bool
  | RawWindowHandle.Win32 a, RawWindowHandle.Win32 b => a.beq b
  | RawWindowHandle.WinRT a, RawWindowHandle.WinRT b => a.beq b
  | _, _ => false

/-- Derived `PartialEq` on `RawDisplayHandle`. -/
def RawDisplayHandle.beq : RawDisplayHandle → RawDisplayHandle → Bool
  | RawDisplayHandle.Windows a, RawDisplayHandle.Windows b => a.beq b

/-- Derived `Hash` on the Win32 payload: the words it feeds to the hasher, in
field order. -/
def Win32WindowHandle.hashWords (a : Win32WindowHandle) : List Nat :=
  [a.hwnd, a.hinstance]

/-- Derived `Hash` on the WinRT payload. -/
def WinRTWindowHandle.hashWords (a : WinRTWindowHandle) : List Nat :=
  [a.core_window]

/-- Derived `Hash` on the empty Windows display payload: nothing written. -/
def WindowsDisplayHandle.hashWords (_ : WindowsDisplayHandle) : List Nat :=
  []

/-- Derived `Hash` on `RawWindowHandle`: the discriminant followed by the
payload's words. -/
def RawWindowHandle.hashWords : RawWindowHandle → List Nat
  | RawWindowHandle.Win32 p => 0 :: p.hashWords
  | RawWindowHandle.WinRT p => 1 :: p.hashWords

/-- Derived `Hash` on `RawDisplayHandle`. -/
def RawDisplayHandle.hashWords : RawDisplayHandle → List Nat
  | RawDisplayHandle.Windows p => 0 :: p.hashWords

/-- Derived `Clone` on the Win32 payload: rebuild from the (copied) fields. -/
def Win32WindowHandle.clone (a : Win32WindowHandle) : Win32WindowHandle :=
  { hwnd := a.hwnd, hinstance := a.hinstance }

/-- Derived `Clone` on the WinRT payload. -/
def WinRTWindowHandle.clone (a : WinRTWindowHandle) : WinRTWindowHandle :=
  { core_window := a.core_window }

/-- Derived `Clone` on the empty Windows display payload. -/
def WindowsDisplayHandle.clone (_ : WindowsDisplayHandle) : WindowsDisplayHandle :=
  {}

/-- Derived `Clone` on `RawWindowHandle`: same tag over the cloned payload. -/
def RawWindowHandle.clone : RawWindowHandle → RawWindowHandle
  | RawWindowHandle.Win32 p => RawWindowHandle.Win32 p.clone
  | RawWindowHandle.WinRT p => RawWindowHandle.WinRT p.clone

/-- Derived `Clone` on `RawDisplayHandle`. -/
def RawDisplayHandle.clone : RawDisplayHandle → RawDisplayHandle
  | RawDisplayHandle.Windows p => RawDisplayHandle.Windows p.clone

/-- The `HasRawWindowHandle` capability trait (src/lib.rs lines 19-21): one
accessor returning a window-handle union value. -/
class HasRawWindowHandle (T : Type) where
  raw_window_handle : T → RawWindowHandle

/-- The `HasRawDisplayHandle` capability trait (src/lib.rs lines 78-80). -/
class HasRawDisplayHandle (T : Type) where
  raw_display_handle : T → RawDisplayHandle

/-- A Rust shared reference `&'a T`, modelled as a wrapper around its
referent (the layer never exposes the address, only the pointed-to value). -/
structure Ref (T : Type) where
  deref : T

/-- The blanket `impl HasRawWindowHandle for &'a T` (src/lib.rs lines 23-27):
`(**self).raw_window_handle()` calls the referent's implementation. -/
instance instHasRawWindowHandleRef {T : Type} [HasRawWindowHandle T] :
    HasRawWindowHandle (Ref T) where
  raw_window_handle self := HasRawWindowHandle.raw_window_handle self.deref

/-- The blanket `impl HasRawDisplayHandle for &'a T` (src/lib.rs lines
82-86).  The body reads `(*self).raw_display_handle()`: with `self : &&'a T`
the receiver expression has type `&'a T`, and Rust method resolution first
looks for a method whose receiver type is exactly `&'a T` — the trait method
of the referent `T`, whose `&self` parameter has type `&T`.  That match is
found before the autoref step that would reach the `&'a T` impl itself, so
the call resolves to `<T as HasRawDisplayHandle>::raw_display_handle` on the
referent, not to a self-recursive call; the resolved semantics embedded here
is plain delegation, the same as the window-side impl. -/
instance instHasRawDisplayHandleRef {T : Type} [HasRawDisplayHandle T] :
    HasRawDisplayHandle (Ref T) where
  raw_display_handle self := HasRawDisplayHandle.raw_display_handle self.deref

/-- Modelled from the spec: the platform-specific events the stability
contract conditions on — an event either invalidates the current handle
(e.g. surface recreation) or leaves it untouched. -/
inductive PlatformEvent where
  | invalidating
  | benign
deriving DecidableEq, Repr

/-- Number of invalidating events in a history of platform events. -/
def invalidatingCount (es : List PlatformEvent) : Nat :=
  (es.filter fun e => e == PlatformEvent.invalidating).length

/-- Modelled from the spec: a contract-honoring implementer of a capability
trait, producing handle values of type `H`.  The spec's stability invariant
says the handle returned may change only at platform invalidation events, so
such an implementer's accessor result is a function of how many invalidating
events have occurred so far. -/
structure StableImpl (H : Type) where
  handleAfter : Nat → H

/-- The accessor of a contract-honoring implementer after a given event
history: the handle determined by the invalidating events seen so far. -/
def StableImpl.accessor {H : Type} (impl : StableImpl H)
    (history : List PlatformEvent) : H :=
  impl.handleAfter (invalidatingCount history)

lemma win32_beq_iff (a b : Win32WindowHandle) :
    a.beq b = true ↔ a = b := by
  cases a; cases b
  simp [Win32WindowHandle.beq, Bool.and_eq_true, Win32WindowHandle.mk.injEq]

lemma winRT_beq_iff (a b : WinRTWindowHandle) :
    a.beq b = true ↔ a = b := by
  cases a; cases b
  simp [WinRTWindowHandle.beq, WinRTWindowHandle.mk.injEq]

lemma windowsDisplay_beq_iff (a b : WindowsDisplayHandle) :
    a.beq b = true ↔ a = b := by
  cases a; cases b
  simp [WindowsDisplayHandle.beq]

lemma rawWindow_beq_iff (a b : RawWindowHandle) :
    a.beq b = true ↔ a = b := by
  cases a <;> cases b <;>
    simp [RawWindowHandle.beq, win32_beq_iff, winRT_beq_iff]

lemma rawDisplay_beq_iff (a b : RawDisplayHandle) :
    a.beq b = true ↔ a = b := by
  cases a; cases b
  simp [RawDisplayHandle.beq, windowsDisplay_beq_iff]

lemma invalidatingCount_append (xs ys : List PlatformEvent) :
    invalidatingCount (xs ++ ys) = invalidatingCount xs + invalidatingCount ys := by
  simp [invalidatingCount, List.filter_append]

lemma invalidatingCount_eq_zero (ys : List PlatformEvent)
    (h : PlatformEvent.invalidating ∉ ys) : invalidatingCount ys = 0 := by
  induction ys with
  | nil => rfl
  | cons y ys ih =>
    simp only [List.mem_cons, not_or] at h
    have hy : (y == PlatformEvent.invalidating) = false := by
      cases y
      · exact absurd rfl (Ne.symm h.1)
      · rfl
    simp [invalidatingCount, List.filter_cons, hy] at ih ⊢
    exact ih h.2

end Windle

namespace Windle

/-- C1: wrapping each payload into its union via the `from_impl!` conversion
and pattern-matching the result under that tag recovers a payload
structurally equal to the original; in particular a Win32 payload with its
numeric window-handle field set to 12345 and the instance field zero, and a
WinRT payload with its single numeric field set to 12345, round-trip to
exactly those field values. -/
theorem C1_from_match_round_trip :
    (∀ p : Win32WindowHandle, (RawWindowHandle.fromWin32 p).matchWin32 = some p) ∧
    (∀ p : WinRTWindowHandle, (RawWindowHandle.fromWinRT p).matchWinRT = some p) ∧
    (∀ p : WindowsDisplayHandle, (RawDisplayHandle.fromWindows p).matchWindows = some p) ∧
    ((RawWindowHandle.fromWin32 { hwnd := 12345, hinstance := 0 }).matchWin32
        = some { hwnd := 12345, hinstance := 0 }) ∧
    ((RawWindowHandle.fromWinRT { core_window := 12345 }).matchWinRT
        = some { core_window := 12345 }) :=
  ⟨fun _ => rfl, fun _ => rfl, fun _ => rfl, rfl, rfl⟩

/-- C2: the blanket reference impls delegate transparently — for every type
with a capability-trait instance, calling the trait operation through a
reference returns exactly the referent's result, for both the window and the
display trait (the display-side `(*self)` body resolves to the referent's
method, not to itself). -/
theorem C2_reference_forwarding_transparent :
    (∀ (T : Type) [HasRawWindowHandle T] (t : T),
      HasRawWindowHandle.raw_window_handle (Ref.mk t)
        = HasRawWindowHandle.raw_window_handle t) ∧
    (∀ (T : Type) [HasRawDisplayHandle T] (t : T),
      HasRawDisplayHandle.raw_display_handle (Ref.mk t)
        = HasRawDisplayHandle.raw_display_handle t) :=
  ⟨fun _ _ _ => rfl, fun _ _ _ => rfl⟩

/-- C3: the derived equality of both unions is reflexive, symmetric and
transitive; two union values compare equal iff they carry the same tag with
field-for-field equal payloads (cross-tag comparisons are false); and the
scenario holds: two Win32 values agreeing on the window-handle field but
differing in the sentinel-versus-populated instance field are unequal. -/
theorem C3_equality_equivalence_and_structural :
    (∀ a : RawWindowHandle, a.beq a = true) ∧
    (∀ a b : RawWindowHandle, a.beq b = b.beq a) ∧
    (∀ a b c : RawWindowHandle, a.beq b = true → b.beq c = true → a.beq c = true) ∧
    (∀ a : RawDisplayHandle, a.beq a = true) ∧
    (∀ a b : RawDisplayHandle, a.beq b = b.beq a) ∧
    (∀ a b c : RawDisplayHandle, a.beq b = true → b.beq c = true → a.beq c = true) ∧
    (∀ pa pb : Win32WindowHandle,
      (RawWindowHandle.Win32 pa).beq (RawWindowHandle.Win32 pb)
        = (pa.hwnd == pb.hwnd && pa.hinstance == pb.hinstance)) ∧
    (∀ pa pb : WinRTWindowHandle,
      (RawWindowHandle.WinRT pa).beq (RawWindowHandle.WinRT pb)
        = (pa.core_window == pb.core_window)) ∧
    (∀ (pa : Win32WindowHandle) (pb : WinRTWindowHandle),
      (RawWindowHandle.Win32 pa).beq (RawWindowHandle.WinRT pb) = false) ∧
    (∀ pa pb : WindowsDisplayHandle,
      (RawDisplayHandle.Windows pa).beq (RawDisplayHandle.Windows pb) = true) ∧
    ((RawWindowHandle.Win32 { hwnd := 12345, hinstance := 0 }).beq
        (RawWindowHandle.Win32 { hwnd := 12345, hinstance := 67890 }) = false) := by
  refine ⟨?_, ?_, ?_, ?_, ?_, ?_, ?_, ?_, ?_, ?_, ?_⟩
  · intro a; exact (rawWindow_beq_iff a a).mpr rfl
  · intro a b
    by_cases h : a = b
    · subst h; rfl
    · have h1 : a.beq b = false := by
        cases hb : a.beq b
        · rfl
        · exact absurd ((rawWindow_beq_iff a b).mp hb) h
      have h2 : b.beq a = false := by
        cases hb : b.beq a
        · rfl
        · exact absurd ((rawWindow_beq_iff b a).mp hb).symm h
      rw [h1, h2]
  · intro a b c hab hbc
    have := (rawWindow_beq_iff a b).mp hab
    have := (rawWindow_beq_iff b c).mp hbc
    exact (rawWindow_beq_iff a c).mpr (by cc)
  · intro a; exact (rawDisplay_beq_iff a a).mpr rfl
  · intro a b
    by_cases h : a = b
    · subst h; rfl
    · have h1 : a.beq b = false := by
        cases hb : a.beq b
        · rfl
        · exact absurd ((rawDisplay_beq_iff a b).mp hb) h
      have h2 : b.beq a = false := by
        cases hb : b.beq a
        · rfl
        · exact absurd ((rawDisplay_beq_iff b a).mp hb).symm h
      rw [h1, h2]
  · intro a b c hab hbc
    have := (rawDisplay_beq_iff a b).mp hab
    have := (rawDisplay_beq_iff b c).mp hbc
    exact (rawDisplay_beq_iff a c).mpr (by cc)
  · intro pa pb; rfl
  · intro pa pb; rfl
  · intro pa pb; rfl
  · intro pa pb; rfl
  · decide

/-- C3 witness: the equivalence and structural characterization applied at
concrete union values, discharging the transitivity hypotheses on equal
Win32 values. -/
theorem C3_equality_equivalence_and_structural_witness :
    (RawWindowHandle.Win32 { hwnd := 7, hinstance := 8 }).beq
      (RawWindowHandle.Win32 { hwnd := 7, hinstance := 8 }) = true :=
  C3_equality_equivalence_and_structural.2.2.1
    (RawWindowHandle.Win32 { hwnd := 7, hinstance := 8 })
    (RawWindowHandle.Win32 { hwnd := 7, hinstance := 8 })
    (RawWindowHandle.Win32 { hwnd := 7, hinstance := 8 })
    (by decide) (by decide)

/-- C4: hashing is consistent with equality — for any hasher (any function
of the word stream the derived `Hash` impl writes), union values that
compare equal produce equal hash codes, for both unions. -/
theorem C4_hash_consistent_with_eq :
    (∀ (hasher : List Nat → Nat) (a b : RawWindowHandle),
      a.beq b = true → hasher a.hashWords = hasher b.hashWords) ∧
    (∀ (hasher : List Nat → Nat) (a b : RawDisplayHandle),
      a.beq b = true → hasher a.hashWords = hasher b.hashWords) := by
  constructor
  · intro hasher a b hab
    rw [(rawWindow_beq_iff a b).mp hab]
  · intro hasher a b hab
    rw [(rawDisplay_beq_iff a b).mp hab]

/-- C4 witness: equal concrete WinRT-tagged values hash to the same code
under a concrete hasher (the sum of the written words). -/
theorem C4_hash_consistent_with_eq_witness :
    (fun ws => ws.foldl Nat.add 0)
        (RawWindowHandle.WinRT { core_window := 5 }).hashWords
      = (fun ws => ws.foldl Nat.add 0)
        (RawWindowHandle.WinRT { core_window := 5 }).hashWords :=
  C4_hash_consistent_with_eq.1 (fun ws => ws.foldl Nat.add 0)
    (RawWindowHandle.WinRT { core_window := 5 })
    (RawWindowHandle.WinRT { core_window := 5 }) (by decide)

/-- C5: each `from_impl!` conversion is injective — equal union results force
equal payloads — and reverse extraction is only the fallible caller-side
match, which does fail on a wrong-tag value (so it is no total inverse). -/
theorem C5_from_injective :
    (∀ p q : Win32WindowHandle,
      RawWindowHandle.fromWin32 p = RawWindowHandle.fromWin32 q → p = q) ∧
    (∀ p q : WinRTWindowHandle,
      RawWindowHandle.fromWinRT p = RawWindowHandle.fromWinRT q → p = q) ∧
    (∀ p q : WindowsDisplayHandle,
      RawDisplayHandle.fromWindows p = RawDisplayHandle.fromWindows q → p = q) ∧
    ((RawWindowHandle.fromWinRT { core_window := 0 }).matchWin32 = none) := by
  refine ⟨?_, ?_, ?_, rfl⟩
  · intro p q h
    exact RawWindowHandle.Win32.inj h
  · intro p q h
    exact RawWindowHandle.WinRT.inj h
  · intro p q h
    exact RawDisplayHandle.Windows.inj h

/-- C5 witness: injectivity applied at a concrete pair of equal conversion
results. -/
theorem C5_from_injective_witness :
    ({ hwnd := 1, hinstance := 2 } : Win32WindowHandle)
      = { hwnd := 1, hinstance := 2 } :=
  C5_from_injective.1 { hwnd := 1, hinstance := 2 } { hwnd := 1, hinstance := 2 } rfl

/-- C6: every operation of the layer is total — each capability-trait
accessor returns a plain union value for every receiver (no error return
path), and each `from_impl!` conversion succeeds on every payload, producing
the tagged union value outright. -/
theorem C6_operations_total :
    (∀ (T : Type) [HasRawWindowHandle T] (t : T),
      ∃ h : RawWindowHandle, HasRawWindowHandle.raw_window_handle t = h) ∧
    (∀ (T : Type) [HasRawDisplayHandle T] (t : T),
      ∃ h : RawDisplayHandle, HasRawDisplayHandle.raw_display_handle t = h) ∧
    (∀ p : Win32WindowHandle, RawWindowHandle.fromWin32 p = RawWindowHandle.Win32 p) ∧
    (∀ p : WinRTWindowHandle, RawWindowHandle.fromWinRT p = RawWindowHandle.WinRT p) ∧
    (∀ p : WindowsDisplayHandle, RawDisplayHandle.fromWindows p = RawDisplayHandle.Windows p) :=
  ⟨fun _ _ _ => ⟨_, rfl⟩, fun _ _ _ => ⟨_, rfl⟩, fun _ => rfl, fun _ => rfl, fun _ => rfl⟩

/-- C7: a contract-honoring implementer (whose handle value changes only at
platform invalidation events, as the spec's stability invariant demands)
returns the same handle value on repeated accessor calls as long as no
invalidating event occurred in between — so a caller may cache the value
across such calls, for window and display handles alike. -/
theorem C7_handle_stable_without_invalidation :
    (∀ (impl : StableImpl RawWindowHandle) (history extra : List PlatformEvent),
      PlatformEvent.invalidating ∉ extra →
        impl.accessor (history ++ extra) = impl.accessor history) ∧
    (∀ (impl : StableImpl RawDisplayHandle) (history extra : List PlatformEvent),
      PlatformEvent.invalidating ∉ extra →
        impl.accessor (history ++ extra) = impl.accessor history) := by
  constructor
  · intro impl history extra hex
    unfold StableImpl.accessor
    rw [invalidatingCount_append, invalidatingCount_eq_zero extra hex, Nat.add_zero]
  · intro impl history extra hex
    unfold StableImpl.accessor
    rw [invalidatingCount_append, invalidatingCount_eq_zero extra hex, Nat.add_zero]

/-- C7 witness: a concrete contract-honoring implementer queried before and
after a benign event yields the same handle value. -/
theorem C7_handle_stable_without_invalidation_witness :
    (StableImpl.mk fun n => RawWindowHandle.fromWin32 { hwnd := n, hinstance := 0 }).accessor
        ([PlatformEvent.invalidating] ++ [PlatformEvent.benign])
      = (StableImpl.mk fun n =>
          RawWindowHandle.fromWin32 { hwnd := n, hinstance := 0 }).accessor
        [PlatformEvent.invalidating] :=
  C7_handle_stable_without_invalidation.1
    (StableImpl.mk fun n => RawWindowHandle.fromWin32 { hwnd := n, hinstance := 0 })
    [PlatformEvent.invalidating] [PlatformEvent.benign] (by decide)

/-- C8: matching a union value under a tag it does not carry never silently
yields a payload — the caller-side fallible match returns `none` on every
wrong-tag value, in both directions within the window union.  Cross-union
confusion (reading a `RawWindowHandle` as a `RawDisplayHandle` or vice
versa) is ruled out at the type level: the two unions are distinct types
here exactly as in the source, and no operation of the layer relates them. -/
theorem C8_wrong_tag_match_yields_none :
    (∀ p : WinRTWindowHandle, (RawWindowHandle.WinRT p).matchWin32 = none) ∧
    (∀ p : Win32WindowHandle, (RawWindowHandle.Win32 p).matchWinRT = none) ∧
    (∀ v : RawWindowHandle, v.matchWin32.isSome → ∃ p, v = RawWindowHandle.Win32 p) ∧
    (∀ v : RawWindowHandle, v.matchWinRT.isSome → ∃ p, v = RawWindowHandle.WinRT p) := by
  refine ⟨fun _ => rfl, fun _ => rfl, ?_, ?_⟩
  · intro v hv
    cases v with
    | Win32 p => exact ⟨p, rfl⟩
    | WinRT p => simp [RawWindowHandle.matchWin32] at hv
  · intro v hv
    cases v with
    | Win32 p => simp [RawWindowHandle.matchWinRT] at hv
    | WinRT p => exact ⟨p, rfl⟩

/-- C8 witness: a Win32-tagged value really does have a Win32 payload, via
the characterization applied at a concrete match success. -/
theorem C8_wrong_tag_match_yields_none_witness :
    ∃ p, RawWindowHandle.Win32 { hwnd := 3, hinstance := 4 } = RawWindowHandle.Win32 p :=
  C8_wrong_tag_match_yields_none.2.2.1
    (RawWindowHandle.Win32 { hwnd := 3, hinstance := 4 }) (by decide)

/-- C9: every constructible `RawWindowHandle` is exactly one of the two
listed variants and every `RawDisplayHandle` is the single listed variant:
the `#[non_exhaustive]` marker reserves future tags but adds no hidden
variant, so a match with arms for the listed tags covers every value the
crate can produce today. -/
theorem C9_variants_exhaustive :
    (∀ v : RawWindowHandle,
      (∃ p, v = RawWindowHandle.Win32 p) ∨ (∃ p, v = RawWindowHandle.WinRT p)) ∧
    (∀ d : RawDisplayHandle, ∃ p, d = RawDisplayHandle.Windows p) := by
  constructor
  · intro v
    cases v with
    | Win32 p => exact Or.inl ⟨p, rfl⟩
    | WinRT p => exact Or.inr ⟨p, rfl⟩
  · intro d
    cases d with
    | Windows p => exact ⟨p, rfl⟩

/-- C10: both unions are trivially copyable values — the derived `Clone`
(field-wise copy, owning no resource) returns a value structurally equal to
the original, for the unions and for every payload struct. -/
theorem C10_clone_eq :
    (∀ v : RawWindowHandle, v.clone = v) ∧
    (∀ d : RawDisplayHandle, d.clone = d) ∧
    (∀ p : Win32WindowHandle, p.clone = p) ∧
    (∀ p : WinRTWindowHandle, p.clone = p) ∧
    (∀ p : WindowsDisplayHandle, p.clone = p) := by
  refine ⟨?_, ?_, fun p => rfl, fun p => rfl, fun p => rfl⟩
  · intro v
    cases v <;> rfl
  · intro d
    cases d; rfl

end Windle
